import Mathlib

set_option autoImplicit false

namespace CallAnalyzer

/-! Shallow embedding of the Customer-Call-Analyzer repository (best.py,
test2.py, data.py).  Python strings are Lean `String`s, the SQLite table
`call_reports` is a list of rows plus the `sqlite_sequence` counter, and the
external collaborators (speech-to-text engine, hosted LLM) are oracles that
supply one free-form text, or a failure, per analysis facet. -/

/-- Python-level exceptions that can escape the analysis script uncaught. -/
inductive PyErr where
  | attributeError
  deriving DecidableEq, Repr

/-- SQLite errors surfaced through the `sqlite3` module. -/
inductive SqlErr where
  | constraintViolation
  | operationalError
  deriving DecidableEq, Repr

/-- Failures of the external collaborators (transcription, hosted LLM). -/
inductive CollabErr where
  | transcriptionFailure
  | llmFailure
  deriving DecidableEq, Repr

/-- The two brace characters, kept out of string literals. -/
def lbrace : Char := Char.ofNat 123

def rbrace : Char := Char.ofNat 125

/-- Whitespace characters removed by Python's `str.strip()`. -/
def isPySpace (c : Char) : Bool :=
  c = ' ' || c = '\t' || c = '\n' || c = '\r' || c = Char.ofNat 11 || c = Char.ofNat 12

/-- Python `str.strip()`: drop leading and trailing whitespace. -/
def pyStrip (s : String) : String :=
  String.mk (((s.data.dropWhile isPySpace).reverse.dropWhile isPySpace).reverse)

/-- Characters strictly before the first closing brace of the list, `none`
when no closing brace occurs: the non-greedy tail of the scan
`re.search` over the pattern "brace, any characters (DOTALL), brace". -/
def closeBlock : List Char → Option (List Char)
  | [] => none
  | c :: cs => if c = rbrace then some [] else (closeBlock cs).map (fun b => c :: b)

/-- Leftmost-shortest match of the brace-block pattern under `re.DOTALL`
(best.py line 127): the match starts at the first opening brace of the text
and ends at the first closing brace after it, newlines included; `none` when
`re.search` finds no match. -/
def findBlock : List Char → Option (List Char)
  | [] => none
  | c :: cs =>
    if c = lbrace then (closeBlock cs).map (fun b => lbrace :: (b ++ [rbrace]))
    else findBlock cs

def findBlockStr (s : String) : Option String :=
  (findBlock s.data).map String.mk

/-- JSON values as produced by Python's `json.loads`; a number keeps its
lexeme, since the scripts never consume numeric values. -/
inductive Json where
  | str : String → Json
  | num : String → Json
  | bool : Bool → Json
  | null : Json
  | arr : List Json → Json
  | obj : List (String × Json) → Json

/-- JSON insignificant whitespace (RFC 8259). -/
def isJsonWs (c : Char) : Bool :=
  c = ' ' || c = '\t' || c = '\n' || c = '\r'

def skipWs (cs : List Char) : List Char := cs.dropWhile isJsonWs

def hexVal (c : Char) : Option Nat :=
  if '0' ≤ c ∧ c ≤ '9' then some (c.toNat - '0'.toNat)
  else if 'a' ≤ c ∧ c ≤ 'f' then some (c.toNat - 'a'.toNat + 10)
  else if 'A' ≤ c ∧ c ≤ 'F' then some (c.toNat - 'A'.toNat + 10)
  else none

/-- Single-character JSON string escapes. -/
def escChar (c : Char) : Option Char :=
  if c = '"' then some '"'
  else if c = '\\' then some '\\'
  else if c = '/' then some '/'
  else if c = 'b' then some (Char.ofNat 8)
  else if c = 'f' then some (Char.ofNat 12)
  else if c = 'n' then some '\n'
  else if c = 'r' then some '\r'
  else if c = 't' then some '\t'
  else none

/-- Parse the body of a JSON string after the opening quote: the decoded
characters plus the rest of the input after the closing quote.  Unescaped
control characters and unknown escapes are rejected, as by Python's strict
`json.loads`. -/
def pStr : Nat → List Char → Option (List Char × List Char)
  | 0, _ => none
  | _, [] => none
  | fuel + 1, c :: cs =>
    if c = '"' then some ([], cs)
    else if c = '\\' then
      match cs with
      | [] => none
      | e :: cs2 =>
        if e = 'u' then
          match cs2 with
          | a :: b :: c3 :: d :: cs3 =>
            match hexVal a, hexVal b, hexVal c3, hexVal d with
            | some ha, some hb, some hc, some hd =>
              (pStr fuel cs3).map
                (fun r => (Char.ofNat (((ha * 16 + hb) * 16 + hc) * 16 + hd) :: r.1, r.2))
            | _, _, _, _ => none
          | _ => none
        else
          (escChar e).bind (fun ec => (pStr fuel cs2).map (fun r => (ec :: r.1, r.2)))
    else if c.toNat < 32 then none
    else (pStr fuel cs).map (fun r => (c :: r.1, r.2))

def digitSpan (cs : List Char) : List Char × List Char :=
  (cs.takeWhile Char.isDigit, cs.dropWhile Char.isDigit)

/-- Integer part of a JSON number: a zero, or a nonzero digit followed by
digits (leading zeros are rejected, as by Python's number grammar). -/
def pNumInt : List Char → Option (List Char × List Char)
  | [] => none
  | c :: cs =>
    if c = '0' then some ([c], cs)
    else if c.isDigit then
      some (c :: (digitSpan cs).1, (digitSpan cs).2)
    else none

/-- Optional fraction part of a JSON number. -/
def pNumFrac (cs : List Char) : Option (List Char × List Char) :=
  match cs with
  | c :: cs2 =>
    if c = '.' then
      if (digitSpan cs2).1 = [] then none
      else some (c :: (digitSpan cs2).1, (digitSpan cs2).2)
    else some ([], cs)
  | [] => some ([], cs)

/-- Optional exponent part of a JSON number. -/
def pNumExp (cs : List Char) : Option (List Char × List Char) :=
  match cs with
  | c :: cs2 =>
    if c = 'e' ∨ c = 'E' then
      match cs2 with
      | s :: cs3 =>
        if s = '+' ∨ s = '-' then
          if (digitSpan cs3).1 = [] then none
          else some (c :: s :: (digitSpan cs3).1, (digitSpan cs3).2)
        else
          if (digitSpan cs2).1 = [] then none
          else some (c :: (digitSpan cs2).1, (digitSpan cs2).2)
      | [] => none
    else some ([], cs)
  | [] => some ([], cs)

/-- Parse a JSON number token at the head of the input; returns its lexeme. -/
def pNum (cs : List Char) : Option (List Char × List Char) :=
  match cs with
  | c :: cs2 =>
    if c = '-' then
      (pNumInt cs2).bind fun r1 =>
        (pNumFrac r1.2).bind fun r2 =>
          (pNumExp r2.2).map fun r3 => (c :: (r1.1 ++ r2.1 ++ r3.1), r3.2)
    else
      (pNumInt cs).bind fun r1 =>
        (pNumFrac r1.2).bind fun r2 =>
          (pNumExp r2.2).map fun r3 => (r1.1 ++ r2.1 ++ r3.1, r3.2)
  | [] => none

mutual

/-- Parse one JSON value, leading whitespace allowed, fuelled. -/
def pVal : Nat → List Char → Option (Json × List Char)
  | 0, _ => none
  | fuel + 1, cs =>
    match skipWs cs with
    | [] => none
    | c :: cs2 =>
      if c = '"' then
        (pStr (cs2.length + 1) cs2).map (fun r => (Json.str (String.mk r.1), r.2))
      else if c = lbrace then
        match skipWs cs2 with
        | c2 :: cs3 =>
          if c2 = rbrace then some (Json.obj [], cs3)
          else (pMembers fuel (skipWs cs2)).map (fun r => (Json.obj r.1, r.2))
        | [] => none
      else if c = '[' then
        match skipWs cs2 with
        | c2 :: cs3 =>
          if c2 = ']' then some (Json.arr [], cs3)
          else (pItems fuel (skipWs cs2)).map (fun r => (Json.arr r.1, r.2))
        | [] => none
      else if c = 't' then
        match cs2 with
        | 'r' :: 'u' :: 'e' :: rest => some (Json.bool true, rest)
        | _ => none
      else if c = 'f' then
        match cs2 with
        | 'a' :: 'l' :: 's' :: 'e' :: rest => some (Json.bool false, rest)
        | _ => none
      else if c = 'n' then
        match cs2 with
        | 'u' :: 'l' :: 'l' :: rest => some (Json.null, rest)
        | _ => none
      else (pNum (c :: cs2)).map (fun r => (Json.num (String.mk r.1), r.2))

/-- Parse one or more key-value members followed by a closing brace; the
input must start at the first key's opening quote. -/
def pMembers : Nat → List Char → Option (List (String × Json) × List Char)
  | 0, _ => none
  | fuel + 1, cs =>
    match cs with
    | c :: cs2 =>
      if c = '"' then
        (pStr (cs2.length + 1) cs2).bind fun rk =>
          match skipWs rk.2 with
          | ':' :: cs3 =>
            (pVal fuel cs3).bind fun rv =>
              match skipWs rv.2 with
              | c4 :: cs4 =>
                if c4 = ',' then
                  (pMembers fuel (skipWs cs4)).map
                    (fun r => ((String.mk rk.1, rv.1) :: r.1, r.2))
                else if c4 = rbrace then some ([(String.mk rk.1, rv.1)], cs4)
                else none
              | [] => none
          | _ => none
      else none
    | [] => none

/-- Parse one or more array items followed by a closing bracket. -/
def pItems : Nat → List Char → Option (List Json × List Char)
  | 0, _ => none
  | fuel + 1, cs =>
    (pVal fuel cs).bind fun rv =>
      match skipWs rv.2 with
      | c :: cs2 =>
        if c = ',' then (pItems fuel cs2).map (fun r => (rv.1 :: r.1, r.2))
        else if c = ']' then some ([rv.1], cs2)
        else none
      | [] => none

end

/-- Python `json.loads`: parse one JSON document with optional surrounding
whitespace; any other input raises `json.JSONDecodeError`, modelled as
`none`. -/
def json_loads (s : String) : Option Json :=
  match pVal (4 * s.length + 16) s.data with
  | some (j, rest) => if skipWs rest = [] then some j else none
  | none => none

/-- Python `dict.get` over the members produced by `json.loads`; a duplicated
key keeps its last occurrence, as `json.loads` builds a `dict`. -/
def jsonGet (o : List (String × Json)) (k : String) : Option Json :=
  o.foldl (fun acc p => if p.1 = k then some p.2 else acc) none

/-- Model of `name_data.get(key, "Unknown").strip()` (best.py lines 130-131):
the default applies only when the key is absent; a present value that is not
a string has no `.strip` attribute, so Python raises `AttributeError`. -/
def getStrip (o : List (String × Json)) (k : String) : Except PyErr String :=
  match jsonGet o k with
  | none => Except.ok "Unknown"
  | some (Json.str s) => Except.ok (pyStrip s)
  | some _ => Except.error PyErr.attributeError

/-- Name extraction from the raw model text (best.py lines 124-134): scan for
the first non-greedy brace block, `json.loads` it, read both keys with
default "Unknown" and strip each.  The `Bool` is the diagnostic flag
(`st.warning`), raised only by the `except json.JSONDecodeError` branch; a
missing block leaves the defaults silently, and an `AttributeError` from
`.strip()` escapes the `try` uncaught. -/
def extractNames (content : String) : Except PyErr (String × String × Bool) :=
  match findBlockStr content with
  | none => Except.ok ("Unknown", "Unknown", false)
  | some block =>
    match json_loads block with
    | none => Except.ok ("Unknown", "Unknown", true)
    | some (Json.obj o) =>
      (getStrip o "agent_name").bind fun a =>
        (getStrip o "customer_name").map fun c => (a, c, false)
    | some _ => Except.error PyErr.attributeError

/-- One row of the `call_reports` table, best.py lines 44-52 schema. -/
structure CallReport where
  id : Nat
  customer_name : String
  agent_name : String
  customer_satisfied : Option String
  company_improvements : Option String
  deriving DecidableEq, Repr

/-- The SQLite file `call_analysis.db`: the `call_reports` b-tree, whose rows
the engine keeps and scans in rowid order, and the `sqlite_sequence` entry
for the table (0 when the entry is absent). -/
structure Store where
  rows : List CallReport
  seq : Nat
  deriving DecidableEq, Repr

/-- The store right after `create_database` on a fresh file. -/
def emptyStore : Store := ⟨[], 0⟩

/-- Largest rowid present in the table, 0 when the table is empty. -/
def maxId (rows : List CallReport) : Nat :=
  rows.foldr (fun r acc => max r.id acc) 0

/-- The `CHECK(customer_satisfied IN ('Yes', 'No'))` constraint of the
schema; as in SQL, a NULL value passes the check. -/
def checkSatisfied : Option String → Bool
  | none => true
  | some s => s = "Yes" || s = "No"

/-- Fields supplied to the single INSERT, best.py lines 165-168. -/
structure ReportFields where
  customer_name : String
  agent_name : String
  customer_satisfied : Option String
  company_improvements : Option String
  deriving DecidableEq, Repr

/-- The `INSERT INTO call_reports` statement (best.py lines 163-170):
AUTOINCREMENT assigns one more than the larger of the sequence value and the
largest existing rowid, then bumps `sqlite_sequence`; a CHECK violation
aborts the statement, leaving the table unchanged, and raises
`sqlite3.IntegrityError`. -/
def insertReport (s : Store) (f : ReportFields) : Store × Option SqlErr :=
  if checkSatisfied f.customer_satisfied then
    (⟨s.rows ++ [⟨max s.seq (maxId s.rows) + 1, f.customer_name, f.agent_name,
        f.customer_satisfied, f.company_improvements⟩],
      max s.seq (maxId s.rows) + 1⟩, none)
  else (s, some SqlErr.constraintViolation)

/-- The Reports-page SELECT over `call_reports` (best.py line 207): a full
scan of the rowid b-tree, returning every row in rowid order, no LIMIT. -/
def listReports (s : Store) : List CallReport := s.rows

/-- data.py `clear_database`: `DELETE FROM call_reports` and delete the
table's `sqlite_sequence` entry. -/
def clear_database (_s : Store) : Store := ⟨[], 0⟩

/-- Column names of the table created by best.py `create_database`. -/
def defaultColumns : List String :=
  ["id", "customer_name", "agent_name", "customer_satisfied", "company_improvements"]

/-- A schema state: `none` when `call_reports` does not exist, otherwise its
column names in declaration order. -/
abbrev Schema := Option (List String)

/-- best.py `create_database` (lines 41-54): CREATE TABLE IF NOT EXISTS. -/
def create_database : Schema → Schema
  | none => some defaultColumns
  | some cs => some cs

/-- Body of best.py `update_database_schema` on an existing table: read the
columns with PRAGMA table_info, then ALTER TABLE ADD COLUMN
company_improvements exactly when that column is missing. -/
def updateColumns (cs : List String) : List String :=
  if "company_improvements" ∈ cs then cs else cs ++ ["company_improvements"]

/-- best.py `update_database_schema` (lines 27-38): on a missing table the
PRAGMA yields no columns and the ALTER TABLE statement raises
`sqlite3.OperationalError`. -/
def update_database_schema : Schema → Except SqlErr Schema
  | none => Except.error SqlErr.operationalError
  | some cs => Except.ok (some (updateColumns cs))

/-- best.py lines 57-58: `create_database()` then `update_database_schema()`,
run on every process start. -/
def ensureSchema (s : Schema) : Except SqlErr Schema :=
  update_database_schema (create_database s)

/-- One free-form response, or a failure, per LLM facet of the Home-page
run, in the order best.py issues the calls. -/
structure LLMOracle where
  summaryResp : Except CollabErr String
  namesResp : Except CollabErr String
  satisfactionResp : Except CollabErr String
  improvementsResp : Except CollabErr String
  critiqueResp : Except CollabErr String

/-- Any error that aborts one Home-page analysis run. -/
inductive RunErr where
  | collab : CollabErr → RunErr
  | py : PyErr → RunErr
  | sql : SqlErr → RunErr
  deriving DecidableEq, Repr

/-- Everything a successful run hands to the presentation layer. -/
structure RunOutput where
  summary : String
  agent_name : String
  customer_name : String
  nameFlag : Bool
  customer_satisfied : String
  company_improvements : String
  critique : String
  deriving DecidableEq, Repr

/-- The Home-page analysis pass of best.py (lines 84-196), starting from the
transcription result: summary call, name call plus extraction, satisfaction
call, improvements call, then the single INSERT, and only afterwards the
response-critique call.  Each failing step aborts the run at that point; the
store component of the result is the state of `call_analysis.db` when the
run ends. -/
def runAnalysis (store : Store) (transcript : Except CollabErr String)
    (o : LLMOracle) : Store × Except RunErr RunOutput :=
  match transcript with
  | Except.error e => (store, Except.error (RunErr.collab e))
  | Except.ok _t =>
    match o.summaryResp with
    | Except.error e => (store, Except.error (RunErr.collab e))
    | Except.ok summary =>
      match o.namesResp with
      | Except.error e => (store, Except.error (RunErr.collab e))
      | Except.ok nameContent =>
        match extractNames nameContent with
        | Except.error pe => (store, Except.error (RunErr.py pe))
        | Except.ok (agent, customer, flag) =>
          match o.satisfactionResp with
          | Except.error e => (store, Except.error (RunErr.collab e))
          | Except.ok satText =>
            match o.improvementsResp with
            | Except.error e => (store, Except.error (RunErr.collab e))
            | Except.ok impText =>
              match insertReport store
                  ⟨customer, agent, some (pyStrip satText), some (pyStrip impText)⟩ with
              | (_, some se) => (store, Except.error (RunErr.sql se))
              | (store2, none) =>
                match o.critiqueResp with
                | Except.error e => (store2, Except.error (RunErr.collab e))
                | Except.ok critique =>
                  (store2, Except.ok ⟨summary, agent, customer, flag,
                    pyStrip satText, pyStrip impText, critique⟩)

/-- Store states reachable through the repository's own operations: the
freshly created empty table, the analysis insert, and the maintenance
clear. -/
inductive Reachable : Store → Prop where
  | init : Reachable emptyStore
  | insert (s : Store) (f : ReportFields) : Reachable s → Reachable (insertReport s f).1
  | clear (s : Store) : Reachable s → Reachable (clear_database s)

/-- Whether a fallible step produced a value. -/
def isOkE {ε α : Type} : Except ε α → Bool
  | Except.ok _ => true
  | Except.error _ => false

/-- A concrete run of the LLM collaborator in which every facet up to the
improvements call answers normally and the final response-critique call
fails. -/
def demoOracle : LLMOracle :=
  ⟨Except.ok "Customer asked about a refund and the agent resolved it.",
   Except.ok "\x7b\"agent_name\": \"Sam\", \"customer_name\": \"Alice\"\x7d",
   Except.ok "Yes",
   Except.ok "No issues reported.",
   Except.error CollabErr.llmFailure⟩

lemma insertReport_ok (s : Store) (f : ReportFields)
    (hc : checkSatisfied f.customer_satisfied = true) :
    insertReport s f
      = (⟨s.rows ++ [⟨max s.seq (maxId s.rows) + 1, f.customer_name, f.agent_name,
            f.customer_satisfied, f.company_improvements⟩],
          max s.seq (maxId s.rows) + 1⟩, none) := by
  simp [insertReport, hc]

lemma insertReport_fail (s : Store) (f : ReportFields)
    (hc : checkSatisfied f.customer_satisfied = false) :
    insertReport s f = (s, some SqlErr.constraintViolation) := by
  simp [insertReport, hc]

lemma ci_mem_updateColumns (cs : List String) :
    "company_improvements" ∈ updateColumns cs := by
  by_cases h : "company_improvements" ∈ cs <;> simp [updateColumns, h]

lemma updateColumns_idem (cs : List String) :
    updateColumns (updateColumns cs) = updateColumns cs := by
  rw [show updateColumns (updateColumns cs)
      = if "company_improvements" ∈ updateColumns cs then updateColumns cs
        else updateColumns cs ++ ["company_improvements"] from rfl,
    if_pos (ci_mem_updateColumns cs)]

/-- C5: an insert whose `customer_satisfied` value is outside the enum, for
example "Maybe", violates the CHECK constraint: the statement fails with the
constraint violation propagated to the caller, and the table keeps exactly
the rows (hence the row count) it had before the call. -/
theorem insertReport_maybe_rejected (s : Store) (cn an : String) (ci : Option String) :
    insertReport s ⟨cn, an, some "Maybe", ci⟩ = (s, some SqlErr.constraintViolation)
    ∧ (insertReport s ⟨cn, an, some "Maybe", ci⟩).1.rows.length = s.rows.length := by
  have h : checkSatisfied (some "Maybe") = false := by decide
  refine ⟨insertReport_fail s _ h, ?_⟩
  rw [insertReport_fail s _ h]

/-- C6: `ensureSchema` (create_database followed by update_database_schema)
is idempotent: from any starting schema state (no table, old schema without
company_improvements, current schema), running it a second time yields
exactly the column list the first run produced. -/
theorem ensureSchema_idempotent (s : Schema) :
    Except.bind (ensureSchema s) ensureSchema = ensureSchema s := by
  cases s with
  | none =>
    show Except.bind (Except.ok (some (updateColumns defaultColumns))) ensureSchema
      = Except.ok (some (updateColumns defaultColumns))
    simp [Except.bind, ensureSchema, create_database, update_database_schema,
      updateColumns_idem]
  | some cs =>
    show Except.bind (Except.ok (some (updateColumns cs))) ensureSchema
      = Except.ok (some (updateColumns cs))
    simp [Except.bind, ensureSchema, create_database, update_database_schema,
      updateColumns_idem]

/-- C10: the migration step only ever adds the single column
company_improvements: the resulting column set is the original set plus at
most that column, and any other absent column (for example agent_name)
remains absent. -/
theorem updateColumns_frame (cs : List String) (c : String)
    (h1 : c ∉ cs) (h2 : c ≠ "company_improvements") :
    (∀ x, x ∈ updateColumns cs ↔ (x ∈ cs ∨ x = "company_improvements"))
    ∧ c ∉ updateColumns cs := by
  have key : ∀ x, x ∈ updateColumns cs ↔ (x ∈ cs ∨ x = "company_improvements") := by
    intro x
    by_cases h : "company_improvements" ∈ cs
    · rw [updateColumns, if_pos h]
      exact ⟨Or.inl, fun hh => hh.elim id (fun e => e ▸ h)⟩
    · rw [updateColumns, if_neg h]
      simp
  refine ⟨key, fun hx => ?_⟩
  rcases (key c).mp hx with h | h
  · exact h1 h
  · exact h2 h

/-- Witness for C10 at a concrete degenerate table: a schema missing
agent_name still misses it after the migration step. -/
theorem updateColumns_frame_witness :
    "agent_name" ∉ updateColumns ["id", "customer_name"] :=
  (updateColumns_frame ["id", "customer_name"] "agent_name"
    (by decide) (by decide)).2

/-- C7: on any store whose sequence counter matches the largest stored id
(as every store produced by this program does), a successful insert assigns
the freshly created row the id one greater than the previous maximum, 1 when
the table is empty, and places it last in the listed sequence; clearing the
store and inserting assigns id 1. -/
theorem insertReport_id_assignment (s : Store) (f : ReportFields)
    (hseq : s.seq = maxId s.rows)
    (hok : checkSatisfied f.customer_satisfied = true) :
    (listReports (insertReport s f).1).getLast?
      = some ⟨maxId s.rows + 1, f.customer_name, f.agent_name,
          f.customer_satisfied, f.company_improvements⟩
    ∧ (s.rows = [] → maxId s.rows + 1 = 1)
    ∧ listReports (insertReport (clear_database s) f).1
      = [⟨1, f.customer_name, f.agent_name, f.customer_satisfied,
          f.company_improvements⟩] := by
  refine ⟨?_, ?_, ?_⟩
  · rw [insertReport_ok s f hok]
    simp [listReports, hseq]
  · intro h
    rw [h]
    simp [maxId]
  · rw [show clear_database s = emptyStore from rfl, insertReport_ok emptyStore f hok]
    simp [listReports, emptyStore, maxId]

/-- Witness for C7 at the empty store with a concrete report. -/
theorem insertReport_id_assignment_witness :
    (listReports (insertReport emptyStore
        ⟨"Alice", "Sam", some "Yes", some "No issues reported."⟩).1).getLast?
      = some ⟨1, "Alice", "Sam", some "Yes", some "No issues reported."⟩ :=
  (insertReport_id_assignment emptyStore
    ⟨"Alice", "Sam", some "Yes", some "No issues reported."⟩ rfl (by decide)).1

lemma reachable_inv (s : Store) (h : Reachable s) :
    (∀ r ∈ s.rows, r.id ≤ s.seq)
    ∧ s.rows.Pairwise (fun a b => a.id < b.id) := by
  induction h with
  | init => exact ⟨by simp [emptyStore], by simp [emptyStore]⟩
  | insert s f _ ih =>
    obtain ⟨h1, h2⟩ := ih
    cases hb : checkSatisfied f.customer_satisfied with
    | false =>
      rw [insertReport_fail s f hb]
      exact ⟨h1, h2⟩
    | true =>
      rw [insertReport_ok s f hb]
      constructor
      · intro r hr
        rcases List.mem_append.mp hr with hmem | hmem
        · exact le_trans (h1 r hmem) (Nat.le_succ_of_le (le_max_left _ _))
        · rw [List.mem_singleton.mp hmem]
      · refine List.pairwise_append.mpr ⟨h2, List.pairwise_singleton _ _, ?_⟩
        intro a ha b hb2
        rw [List.mem_singleton.mp hb2]
        exact Nat.lt_succ_of_le (le_trans (h1 a ha) (le_max_left _ _))
  | clear s _ _ => exact ⟨by simp [clear_database], by simp [clear_database]⟩

/-- C8: on every store state this program can produce, the Reports-page read
returns all stored rows, with no size restriction, in strictly ascending id
order. -/
theorem listReports_ordered (s : Store) (h : Reachable s) :
    listReports s = s.rows
    ∧ (listReports s).Pairwise (fun a b => a.id < b.id) :=
  ⟨rfl, (reachable_inv s h).2⟩

/-- Witness for C8 at a concrete two-insert store. -/
theorem listReports_ordered_witness :
    listReports (insertReport (insertReport emptyStore
        ⟨"A", "B", some "Yes", some "x"⟩).1 ⟨"C", "D", some "No", some "y"⟩).1
      = (insertReport (insertReport emptyStore
        ⟨"A", "B", some "Yes", some "x"⟩).1 ⟨"C", "D", some "No", some "y"⟩).1.rows
    ∧ (listReports (insertReport (insertReport emptyStore
        ⟨"A", "B", some "Yes", some "x"⟩).1 ⟨"C", "D", some "No", some "y"⟩).1).Pairwise
        (fun a b => a.id < b.id) :=
  listReports_ordered _
    (Reachable.insert _ _ (Reachable.insert _ _ Reachable.init))

/-- C2 counterexample: this text contains, embedded in surrounding text, the
well-formed JSON object pairing agent "Sam" with customer "Alice", yet
extraction returns ("Unknown", "Unknown") with the diagnostic flag, because
the stray opening brace in the surrounding text makes the first non-greedy
brace block unparsable. -/
theorem extractNames_embedded_json_cex :
    json_loads "\x7b\"agent_name\": \"Sam\", \"customer_name\": \"Alice\"\x7d"
      = some (Json.obj [("agent_name", Json.str "Sam"), ("customer_name", Json.str "Alice")])
    ∧ ("x\x7by\x7b\"agent_name\": \"Sam\", \"customer_name\": \"Alice\"\x7d" : String)
      = "x\x7by" ++ "\x7b\"agent_name\": \"Sam\", \"customer_name\": \"Alice\"\x7d"
    ∧ extractNames "x\x7by\x7b\"agent_name\": \"Sam\", \"customer_name\": \"Alice\"\x7d"
      = Except.ok ("Unknown", "Unknown", true) :=
  ⟨rfl, by decide, rfl⟩

/-- C2 (amended): whenever the first non-greedy brace block of the text is
itself a parsable JSON object carrying string values under agent_name and
customer_name, extraction returns both values with surrounding whitespace
trimmed and raises no diagnostic flag. -/
theorem extractNames_first_block (text block : String) (o : List (String × Json))
    (a c : String)
    (hb : findBlockStr text = some block)
    (hj : json_loads block = some (Json.obj o))
    (ha : jsonGet o "agent_name" = some (Json.str a))
    (hc : jsonGet o "customer_name" = some (Json.str c)) :
    extractNames text = Except.ok (pyStrip a, pyStrip c, false) := by
  simp [extractNames, hb, hj, getStrip, ha, hc, Except.bind, Except.map]

/-- Witness for C2's amended theorem on a concrete model reply. -/
theorem extractNames_first_block_witness :
    extractNames "Sure! \x7b\"agent_name\": \" Sam \", \"customer_name\": \"Alice\"\x7d"
      = Except.ok ("Sam", "Alice", false) :=
  extractNames_first_block
    "Sure! \x7b\"agent_name\": \" Sam \", \"customer_name\": \"Alice\"\x7d"
    "\x7b\"agent_name\": \" Sam \", \"customer_name\": \"Alice\"\x7d"
    [("agent_name", Json.str " Sam "), ("customer_name", Json.str "Alice")]
    " Sam " "Alice" rfl rfl rfl rfl

/-- C3 counterexample: a reply with no braces at all returns the defaults
with the diagnostic flag down — the missing-block branch never reaches the
`except` clause that shows the warning, so no diagnostic is raised. -/
theorem extractNames_no_block_silent_cex :
    extractNames "no braces at all" = Except.ok ("Unknown", "Unknown", false) := rfl

/-- C3 (amended): both malformed cases return ("Unknown", "Unknown"), but
the diagnostic flag is raised only when a brace block is found and fails to
parse; when no block exists the defaults are returned silently. -/
theorem extractNames_fallbacks (text : String) :
    (findBlockStr text = none →
      extractNames text = Except.ok ("Unknown", "Unknown", false))
    ∧ (∀ b, findBlockStr text = some b → json_loads b = none →
      extractNames text = Except.ok ("Unknown", "Unknown", true)) := by
  constructor
  · intro h
    simp [extractNames, h]
  · intro b hb hj
    simp [extractNames, hb, hj]

/-- Witness for C3's amended theorem on both malformed cases. -/
theorem extractNames_fallbacks_witness :
    extractNames "name reply without any json" = Except.ok ("Unknown", "Unknown", false)
    ∧ extractNames "\x7bnot json\x7d" = Except.ok ("Unknown", "Unknown", true) :=
  ⟨(extractNames_fallbacks "name reply without any json").1 rfl,
   (extractNames_fallbacks "\x7bnot json\x7d").2 "\x7bnot json\x7d" rfl rfl⟩

/-- C9 counterexample: this block parses as a JSON object lacking
customer_name, yet extraction does not return "Unknown" for the missing key:
the non-string value under agent_name raises an uncaught AttributeError
first. -/
theorem extractNames_missing_key_cex :
    json_loads "\x7b\"agent_name\": 1\x7d" = some (Json.obj [("agent_name", Json.num "1")])
    ∧ jsonGet [("agent_name", Json.num "1")] "customer_name" = none
    ∧ extractNames "\x7b\"agent_name\": 1\x7d" = Except.error PyErr.attributeError :=
  ⟨rfl, rfl, rfl⟩

/-- C9 (amended): when the first brace block parses as a JSON object lacking
agent_name or customer_name, and any value present under those two keys is a
string, extraction silently defaults each missing key to "Unknown" and
raises no diagnostic flag. -/
theorem extractNames_missing_keys (text b : String) (o : List (String × Json))
    (hb : findBlockStr text = some b)
    (hj : json_loads b = some (Json.obj o)) :
    (jsonGet o "agent_name" = none → jsonGet o "customer_name" = none →
      extractNames text = Except.ok ("Unknown", "Unknown", false))
    ∧ (∀ c, jsonGet o "agent_name" = none →
        jsonGet o "customer_name" = some (Json.str c) →
        extractNames text = Except.ok ("Unknown", pyStrip c, false))
    ∧ (∀ a, jsonGet o "agent_name" = some (Json.str a) →
        jsonGet o "customer_name" = none →
        extractNames text = Except.ok (pyStrip a, "Unknown", false)) := by
  refine ⟨fun h1 h2 => ?_, fun c h1 h2 => ?_, fun a h1 h2 => ?_⟩ <;>
    simp [extractNames, hb, hj, getStrip, h1, h2, Except.bind, Except.map]

/-- Witness for C9's amended theorem: an object with neither key yields both
defaults and no flag. -/
theorem extractNames_missing_keys_witness :
    extractNames "\x7b\"x\": 2\x7d" = Except.ok ("Unknown", "Unknown", false) :=
  (extractNames_missing_keys "\x7b\"x\": 2\x7d" "\x7b\"x\": 2\x7d"
    [("x", Json.num "2")] rfl rfl).1 rfl rfl

lemma getStrip_ok_or_bad (o : List (String × Json)) (k : String) :
    (∃ s, getStrip o k = Except.ok s)
    ∨ (∃ v, jsonGet o k = some v ∧ (∀ s, v ≠ Json.str s)
        ∧ getStrip o k = Except.error PyErr.attributeError) := by
  cases hg : jsonGet o k with
  | none => exact Or.inl ⟨"Unknown", by simp [getStrip, hg]⟩
  | some v =>
    cases v with
    | str s => exact Or.inl ⟨pyStrip s, by simp [getStrip, hg]⟩
    | num x => exact Or.inr ⟨Json.num x, rfl, fun s hs => Json.noConfusion hs, by simp [getStrip, hg]⟩
    | bool bb => exact Or.inr ⟨Json.bool bb, rfl, fun s hs => Json.noConfusion hs, by simp [getStrip, hg]⟩
    | null => exact Or.inr ⟨Json.null, rfl, fun s hs => Json.noConfusion hs, by simp [getStrip, hg]⟩
    | arr l => exact Or.inr ⟨Json.arr l, rfl, fun s hs => Json.noConfusion hs, by simp [getStrip, hg]⟩
    | obj oo => exact Or.inr ⟨Json.obj oo, rfl, fun s hs => Json.noConfusion hs, by simp [getStrip, hg]⟩

/-- C4 counterexample: a block that parses as a JSON object whose agent_name
value is the number 1 makes extraction raise an uncaught AttributeError —
`extract` is not total and does fail the pipeline on this malformed input. -/
theorem extractNames_not_total_cex :
    extractNames "\x7b\"agent_name\": 1, \"customer_name\": \"Bob\"\x7d"
      = Except.error PyErr.attributeError := rfl

/-- C4 (amended): extraction is total except that it raises AttributeError
exactly when the first brace block parses to a JSON value on which Python's
attribute lookup for `.strip` fails: a non-object, or an object carrying a
non-string value under agent_name or customer_name. -/
theorem extractNames_total_characterization (text : String) :
    isOkE (extractNames text) = true
    ∨ ∃ b j, findBlockStr text = some b ∧ json_loads b = some j
        ∧ ((∀ o, j ≠ Json.obj o)
           ∨ ∃ o, j = Json.obj o
              ∧ ((∃ v, jsonGet o "agent_name" = some v ∧ ∀ s, v ≠ Json.str s)
                 ∨ (∃ v, jsonGet o "customer_name" = some v ∧ ∀ s, v ≠ Json.str s))) := by
  cases hb : findBlockStr text with
  | none => exact Or.inl (by simp [extractNames, hb, isOkE])
  | some b =>
    cases hj : json_loads b with
    | none => exact Or.inl (by simp [extractNames, hb, hj, isOkE])
    | some j =>
      cases j with
      | obj o =>
        rcases getStrip_ok_or_bad o "agent_name" with ⟨a, hga⟩ | ⟨v, hv, hvs, _⟩
        · rcases getStrip_ok_or_bad o "customer_name" with ⟨c, hgc⟩ | ⟨v, hv, hvs, _⟩
          · exact Or.inl (by
              simp [extractNames, hb, hj, hga, hgc, Except.bind, Except.map, isOkE])
          · exact Or.inr ⟨b, Json.obj o, rfl, hj,
              Or.inr ⟨o, rfl, Or.inr ⟨v, hv, hvs⟩⟩⟩
        · exact Or.inr ⟨b, Json.obj o, rfl, hj,
            Or.inr ⟨o, rfl, Or.inl ⟨v, hv, hvs⟩⟩⟩
      | str s => exact Or.inr ⟨b, Json.str s, rfl, hj, Or.inl (fun o h => Json.noConfusion h)⟩
      | num x => exact Or.inr ⟨b, Json.num x, rfl, hj, Or.inl (fun o h => Json.noConfusion h)⟩
      | bool bb => exact Or.inr ⟨b, Json.bool bb, rfl, hj, Or.inl (fun o h => Json.noConfusion h)⟩
      | null => exact Or.inr ⟨b, Json.null, rfl, hj, Or.inl (fun o h => Json.noConfusion h)⟩
      | arr l => exact Or.inr ⟨b, Json.arr l, rfl, hj, Or.inl (fun o h => Json.noConfusion h)⟩

/-- C1 counterexample: with every facet up to the improvements call
answering normally and the response-critique call failing, the run aborts
with a collaborator failure, yet the store has gained the analyzed row — the
insert happened while the critique facet was still outstanding, so a facet
failure did not leave the store unchanged. -/
theorem insert_precedes_critique_cex :
    isOkE (runAnalysis emptyStore (Except.ok "call transcript") demoOracle).2 = false
    ∧ (runAnalysis emptyStore (Except.ok "call transcript") demoOracle).1
        = ⟨[⟨1, "Alice", "Sam", some "Yes", some "No issues reported."⟩], 1⟩
    ∧ (runAnalysis emptyStore (Except.ok "call transcript") demoOracle).1
        ≠ emptyStore := by
  refine ⟨rfl, rfl, ?_⟩
  rw [show (runAnalysis emptyStore (Except.ok "call transcript") demoOracle).1
      = (⟨[⟨1, "Alice", "Sam", some "Yes", some "No issues reported."⟩], 1⟩ : Store)
      from rfl]
  decide

/-- C1 (amended): the single insert happens after the summary, name,
satisfaction and improvements facets resolve but before the
response-critique facet: a collaborator failure in transcription or any of
those four facets leaves the store unchanged, while once those four resolve
(extraction succeeding and the check passing) the row is persisted whatever
the critique call later does. -/
theorem insert_placement (store : Store) (t : Except CollabErr String) (o : LLMOracle) :
    ((isOkE t = false ∨ isOkE o.summaryResp = false ∨ isOkE o.namesResp = false
        ∨ isOkE o.satisfactionResp = false ∨ isOkE o.improvementsResp = false) →
      (runAnalysis store t o).1 = store)
    ∧ (∀ ts ss ns sats imps agent customer flag,
        t = Except.ok ts → o.summaryResp = Except.ok ss → o.namesResp = Except.ok ns →
        extractNames ns = Except.ok (agent, customer, flag) →
        o.satisfactionResp = Except.ok sats → o.improvementsResp = Except.ok imps →
        checkSatisfied (some (pyStrip sats)) = true →
        (runAnalysis store t o).1.rows
          = store.rows ++ [⟨max store.seq (maxId store.rows) + 1, customer, agent,
              some (pyStrip sats), some (pyStrip imps)⟩]) := by
  obtain ⟨s1, s2, s3, s4, s5⟩ := o
  constructor
  · intro hfail
    cases t with
    | error e => simp [runAnalysis]
    | ok ts =>
      cases s1 with
      | error e => simp [runAnalysis]
      | ok ss =>
        cases s2 with
        | error e => simp [runAnalysis]
        | ok ns =>
          cases hE : extractNames ns with
          | error pe => simp [runAnalysis, hE]
          | ok trip =>
            obtain ⟨agent, customer, flag⟩ := trip
            cases s3 with
            | error e => simp [runAnalysis, hE]
            | ok sats =>
              cases s4 with
              | error e => simp [runAnalysis, hE]
              | ok imps => simp [isOkE] at hfail
  · intro ts ss ns sats imps agent customer flag ht hs1 hs2 hex hs3 hs4 hchk
    subst ht
    subst hs1
    subst hs2
    subst hs3
    subst hs4
    cases s5 with
    | error e => simp [runAnalysis, hex, insertReport, hchk]
    | ok crit => simp [runAnalysis, hex, insertReport, hchk]

/-- Witness for C1's amended theorem: the same concrete run as the
counterexample, whose row is persisted although the critique call fails. -/
theorem insert_placement_witness :
    (runAnalysis emptyStore (Except.ok "call transcript") demoOracle).1.rows
      = [⟨1, "Alice", "Sam", some "Yes", some "No issues reported."⟩] :=
  (insert_placement emptyStore (Except.ok "call transcript") demoOracle).2
    "call transcript"
    "Customer asked about a refund and the agent resolved it."
    "\x7b\"agent_name\": \"Sam\", \"customer_name\": \"Alice\"\x7d"
    "Yes" "No issues reported." "Sam" "Alice" false
    rfl rfl rfl rfl rfl rfl (by decide)

end CallAnalyzer
